import Mathlib

/-!
Shallow embedding of `robosuite/demos/demo_gripper_interaction.py`.

The script assembles a MuJoCo scene and then runs an infinite control loop.
The loop body (the part the claims are about) is embedded below as pure
Lean functions over an explicit state:

* `seq`, `T`, `gripper_z_low`, `gripper_z_high`, `gripper_open`,
  `gripper_closed` are the script's literal constants (decimal float
  literals are embedded as exact rationals);
* `planStep` is the `if step % T == 0: plan = seq[int(step / T) % len(seq)]`
  update of the two phase flags;
* `updateCtrl` is the block of writes to `sim.data.ctrl`;
* `copyGravity` is the `sim.data.qfrc_applied[idx] = sim.data.qfrc_bias[idx]`
  gravity-compensation copy;
* `contactLines` is the contact-diagnostics printing loop;
* `iterate` is the whole body of `while True`, returning the next state
  together with the ordered trace of observable actions (prints, control
  writes, the engine step, the gravity copy, the render call);
* `runSteps` iterates the body; `initState` is the state right before the
  loop (`gripper_z_is_low = False`, `gripper_is_closed = True`, `step = 0`).

The physics engine itself (`sim.step()`) is external to the repository; it
is passed in as an arbitrary function `phys` on the engine data, and
`geomName` abstracts `sim.model.geom_id2name`.  The script's index
computation `int(step / T)` is embedded as integer division on `Nat`,
which is what it computes for every counter value reachable in practice.
-/

namespace GripperDemo

/-- Constant `gripper_z_low = 0.07`. -/
def gripper_z_low : ℚ := 7 / 100

/-- Constant `gripper_z_high = -0.02`. -/
def gripper_z_high : ℚ := -2 / 100

/-- Constant `gripper_open = [-0.0115, 0.0115]`. -/
def gripper_open : List ℚ := [-115 / 10000, 115 / 10000]

/-- Constant `gripper_closed = [0.020833, -0.020833]`. -/
def gripper_closed : List ℚ := [20833 / 1000000, -20833 / 1000000]

/-- Table `seq = [(False, False), (True, False), (True, True), (False, True)]`,
each pair being `(gripper_z_is_low, gripper_is_closed)`. -/
def seq : List (Bool × Bool) := [(false, false), (true, false), (true, true), (false, true)]

/-- Constant `T = 500`, the number of ticks between plan advances. -/
def T : Nat := 500

/-- List `gravity_corrected = ["gripper_z_joint"]`. -/
def gravity_corrected : List String := ["gripper_z_joint"]

/-- The actuator ids obtained from `sim.model.actuator_name2id`:
`gripper_z_id` for the `"gripper_z"` height actuator and the two jaw
actuator ids `gripper_jaw_ids`.  The jaw count (two) is the length of
`gripper.actuators` of the `RethinkGripper` model, which per the spec
drives "one of two 2-element finger setpoints". -/
structure Ids where
  gripper_z_id : Nat
  jaw0 : Nat
  jaw1 : Nat
  deriving Repr, DecidableEq

/-- A contact record as read from `sim.data.contact`: two geom ids, the
friction parameters and the 9-element contact frame. -/
structure Contact where
  geom1 : Nat
  geom2 : Nat
  friction : List ℚ
  frame : List ℚ
  deriving Repr, DecidableEq

/-- The engine-side data the script reads and writes through `sim.data`:
the actuator control array `ctrl`, the applied-force array `qfrc_applied`,
the bias-force array `qfrc_bias`, and the contact list with its count
`ncon`. -/
structure EngineData where
  ctrl : Nat → ℚ
  qfrc_applied : Nat → ℚ
  qfrc_bias : Nat → ℚ
  ncon : Nat
  contacts : List Contact

/-- Script-side loop state: the two phase flags, the step counter, and the
engine data the script manipulates. -/
structure ScriptState where
  low : Bool
  closed : Bool
  step : Nat
  eng : EngineData

/-- Pointwise array update (a single `a[i] = v` store). -/
def write (a : Nat → ℚ) (i : Nat) (v : ℚ) : Nat → ℚ :=
  fun j => if j = i then v else a j

/-- The plan-table update executed when `step % T == 0`:
`plan = seq[int(step / T) % len(seq)]` (no change on other steps). -/
def planStep (step : Nat) (f : Bool × Bool) : Bool × Bool :=
  if step % T = 0 then seq.getD ((step / T) % seq.length) (false, false) else f

/-- The plan lookup index `int(step / T) % len(seq)`. -/
def planIndex (step : Nat) : Nat := (step / T) % seq.length

/-- The control-array writes of one iteration:
`sim.data.ctrl[gripper_z_id] = gripper_z_low/gripper_z_high` followed by
`sim.data.ctrl[gripper_jaw_ids] = gripper_closed/gripper_open`. -/
def updateCtrl (ids : Ids) (low closed : Bool) (c : Nat → ℚ) : Nat → ℚ :=
  let c1 := write c ids.gripper_z_id (if low then gripper_z_low else gripper_z_high)
  let jaw := if closed then gripper_closed else gripper_open
  let c2 := write c1 ids.jaw0 (jaw.getD 0 0)
  write c2 ids.jaw1 (jaw.getD 1 0)

/-- The gravity-compensation copy
`sim.data.qfrc_applied[vidx] = sim.data.qfrc_bias[vidx]`. -/
def copyGravity (vidx : List Nat) (e : EngineData) : EngineData :=
  { e with qfrc_applied := fun i => if i ∈ vidx then e.qfrc_bias i else e.qfrc_applied i }

/-- One printed contact line: the two geom names, the friction parameters
and `contact.frame[0:3]` (the contact normal). -/
abbrev PrintedContact : Type := String × String × List ℚ × List ℚ

/-- The contact-diagnostics loop over `sim.data.contact[0:ncon]`: a contact
whose two geom names are both `"floor"` is skipped (`continue`); every
other contact is printed. -/
def contactLines (geomName : Nat → String) : List Contact → List PrintedContact
  | [] => []
  | c :: rest =>
    if geomName c.geom1 = "floor" ∧ geomName c.geom2 = "floor" then
      contactLines geomName rest
    else
      (geomName c.geom1, geomName c.geom2, c.friction, c.frame.take 3) ::
        contactLines geomName rest

/-- Observable actions of one loop iteration, in program order. -/
inductive Event where
  | printStep : Nat → Event
  | printContact : PrintedContact → Event
  | planChange : Bool → Bool → Event
  | writeCtrl : Nat → ℚ → Event
  | engineStep : Event
  | copyGrav : List Nat → Event
  | render : Event
  deriving Repr, DecidableEq

/-- The body of the `while True` loop: contact diagnostics every 100 steps,
plan update every `T` steps, the three control writes, one engine step, the
gravity copy, the render, and `step += 1`.  Returns the next state and the
ordered trace of observable actions. -/
def iterate (phys : EngineData → EngineData) (geomName : Nat → String)
    (ids : Ids) (vidx : List Nat) (s : ScriptState) : ScriptState × List Event :=
  let printEvts : List Event :=
    if s.step % 100 = 0 then
      Event.printStep s.step ::
        (contactLines geomName (s.eng.contacts.take s.eng.ncon)).map Event.printContact
    else []
  let f := planStep s.step (s.low, s.closed)
  let planEvts : List Event :=
    if s.step % T = 0 then [Event.planChange f.1 f.2] else []
  let zval : ℚ := if f.1 then gripper_z_low else gripper_z_high
  let jaw : List ℚ := if f.2 then gripper_closed else gripper_open
  let eng1 : EngineData := { s.eng with ctrl := updateCtrl ids f.1 f.2 s.eng.ctrl }
  let eng3 : EngineData := copyGravity vidx (phys eng1)
  ({ low := f.1, closed := f.2, step := s.step + 1, eng := eng3 },
    printEvts ++ planEvts ++
      [Event.writeCtrl ids.gripper_z_id zval,
       Event.writeCtrl ids.jaw0 (jaw.getD 0 0),
       Event.writeCtrl ids.jaw1 (jaw.getD 1 0),
       Event.engineStep, Event.copyGrav vidx, Event.render])

/-- The state right before the loop: `gripper_z_is_low = False`,
`gripper_is_closed = True`, `step = 0`. -/
def initState (e : EngineData) : ScriptState :=
  { low := false, closed := true, step := 0, eng := e }

/-- Function `runSteps n s` runs `n` iterations of the loop body from `s`. -/
def runSteps (phys : EngineData → EngineData) (geomName : Nat → String)
    (ids : Ids) (vidx : List Nat) : Nat → ScriptState → ScriptState
  | 0, s => s
  | n + 1, s => (iterate phys geomName ids vidx (runSteps phys geomName ids vidx n s)).fst

/-- Phase pair `(gripper_z_is_low, gripper_is_closed)` that is active
during iteration `n` of the loop (i.e. after the plan update of step `n`):
the flags of the state reached after `n + 1` iterations from the initial
state. -/
def activePair (phys : EngineData → EngineData) (gn : Nat → String)
    (ids : Ids) (vidx : List Nat) (e : EngineData) (n : Nat) : Bool × Bool :=
  ((runSteps phys gn ids vidx (n + 1) (initState e)).low,
   (runSteps phys gn ids vidx (n + 1) (initState e)).closed)

/-- Predicate selecting the control writes, the engine step and the render
call in a trace. -/
def isCtrlStepRender : Event → Bool
  | .writeCtrl _ _ => true
  | .engineStep => true
  | .render => true
  | _ => false

/-- Predicate selecting the engine step, the gravity copy and the render
call in a trace. -/
def isStepCopyRender : Event → Bool
  | .engineStep => true
  | .copyGrav _ => true
  | .render => true
  | _ => false

/-- Predicate selecting the control writes in a trace. -/
def isWrite : Event → Bool
  | .writeCtrl _ _ => true
  | _ => false

/-- The name-resolution surface of `sim.model` used by the script:
`get_joint_qvel_addr`, `actuator_name2id` and `geom_id2name`.  Each lookup
may fail (an unknown name or id raises in the underlying library), which
the embedding renders as `Option`. -/
structure SimModel where
  joint_qvel_addr : String → Option Nat
  actuator_id : String → Option Nat
  geom_name : Nat → Option String

/-- Lift one fallible external lookup into `Except`: a failed lookup is an
uncaught exception carrying the offending name. -/
def lookupE {α : Type} (o : Option α) (msg : String) : Except String α :=
  match o with
  | some v => Except.ok v
  | none => Except.error msg

/-- Perform a list of fallible lookups (a Python list comprehension over a
raising lookup): the first failure aborts the whole computation. -/
def lookupAll {α β : Type} (f : α → Except String β) : List α → Except String (List β)
  | [] => Except.ok []
  | x :: xs =>
    match f x with
    | Except.error e => Except.error e
    | Except.ok v =>
      match lookupAll f xs with
      | Except.error e => Except.error e
      | Except.ok vs => Except.ok (v :: vs)

/-- The reference-resolution prologue of the script, with its fallible
external calls made explicit: `_ref_joint_vel_indexes` from
`get_joint_qvel_addr`, then `gripper_z_id` and `gripper_jaw_ids` from
`actuator_name2id` (the jaw actuator names come from `gripper.actuators`).
No call is wrapped in any handler, so the first failure is the result of
the whole prologue. -/
def setupRefs (m : SimModel) (actuatorNames : List String) :
    Except String (List Nat × Nat × List Nat) :=
  match lookupAll (fun x => lookupE (m.joint_qvel_addr x) x) gravity_corrected with
  | Except.error e => Except.error e
  | Except.ok vidx =>
    match lookupE (m.actuator_id ("gripper_z")) ("gripper_z") with
    | Except.error e => Except.error e
    | Except.ok zid =>
      match lookupAll (fun x => lookupE (m.actuator_id x) x) actuatorNames with
      | Except.error e => Except.error e
      | Except.ok jaws => Except.ok (vidx, zid, jaws)

/-- The contact-diagnostics loop with the fallibility of `geom_id2name`
made explicit: a failed id-to-name lookup aborts the whole loop with no
handler in between. -/
def contactLinesE (name : Nat → Option String) :
    List Contact → Except String (List PrintedContact)
  | [] => Except.ok []
  | c :: rest =>
    match lookupE (name c.geom1) ("geom_id2name") with
    | Except.error e => Except.error e
    | Except.ok g1 =>
      match lookupE (name c.geom2) ("geom_id2name") with
      | Except.error e => Except.error e
      | Except.ok g2 =>
        match contactLinesE name rest with
        | Except.error e => Except.error e
        | Except.ok tail =>
          if g1 = "floor" ∧ g2 = "floor" then Except.ok tail
          else Except.ok ((g1, g2, c.friction, c.frame.take 3) :: tail)

/-- Engine-data fixture used by concrete witnesses. -/
def engZero : EngineData :=
  { ctrl := fun _ => 0, qfrc_applied := fun _ => 0, qfrc_bias := fun _ => 0,
    ncon := 0, contacts := [] }

/-- Id fixture used by concrete witnesses. -/
def ids012 : Ids := { gripper_z_id := 0, jaw0 := 1, jaw1 := 2 }

/-- Model fixture in which every name lookup fails, used by concrete
witnesses. -/
def mNone : SimModel :=
  { joint_qvel_addr := fun _ => none, actuator_id := fun _ => none,
    geom_name := fun _ => none }

/-- Contact fixture used by concrete witnesses. -/
def contact0 : Contact := { geom1 := 0, geom2 := 0, friction := [], frame := [] }

theorem seq_length_eq : seq.length = 4 := rfl

theorem succ_div_T (n : Nat) (h : (n + 1) % T ≠ 0) : (n + 1) / T = n / T := by
  simp only [T] at h ⊢
  omega

theorem div_T_advance (m : Nat) (h0 : 0 < m) (h : m % T = 0) :
    m / T = (m - 1) / T + 1 := by
  simp only [T] at h ⊢
  omega

theorem iterate_fst_low (phys : EngineData → EngineData) (gn : Nat → String)
    (ids : Ids) (vidx : List Nat) (s : ScriptState) :
    (iterate phys gn ids vidx s).fst.low = (planStep s.step (s.low, s.closed)).1 := rfl

theorem iterate_fst_closed (phys : EngineData → EngineData) (gn : Nat → String)
    (ids : Ids) (vidx : List Nat) (s : ScriptState) :
    (iterate phys gn ids vidx s).fst.closed = (planStep s.step (s.low, s.closed)).2 := rfl

theorem iterate_fst_step (phys : EngineData → EngineData) (gn : Nat → String)
    (ids : Ids) (vidx : List Nat) (s : ScriptState) :
    (iterate phys gn ids vidx s).fst.step = s.step + 1 := rfl

theorem runSteps_step_eq (phys : EngineData → EngineData) (gn : Nat → String)
    (ids : Ids) (vidx : List Nat) (e : EngineData) :
    ∀ n, (runSteps phys gn ids vidx n (initState e)).step = n := by
  intro n
  induction n with
  | zero => rfl
  | succ n ih => rw [runSteps, iterate_fst_step, ih]

theorem activePair_eq (phys : EngineData → EngineData) (gn : Nat → String)
    (ids : Ids) (vidx : List Nat) (e : EngineData) :
    ∀ n, activePair phys gn ids vidx e n
        = seq.getD ((n / T) % seq.length) (false, false) := by
  intro n
  induction n with
  | zero =>
    unfold activePair
    rw [runSteps, runSteps, iterate_fst_low, iterate_fst_closed]
    simp only [initState]
    decide
  | succ n ih =>
    have hstep := runSteps_step_eq phys gn ids vidx e (n + 1)
    unfold activePair at ih ⊢
    rw [runSteps, iterate_fst_low, iterate_fst_closed, hstep]
    by_cases h : (n + 1) % T = 0
    · simp [planStep, h]
    · simp only [planStep, if_neg h]
      rw [succ_div_T n h] at *
      exact ih

theorem getD_mod_mem (i : Nat) : seq.getD (i % seq.length) (false, false) ∈ seq := by
  rw [seq_length_eq]
  have h : i % 4 = 0 ∨ i % 4 = 1 ∨ i % 4 = 2 ∨ i % 4 = 3 := by omega
  rcases h with h | h | h | h <;> rw [h] <;> decide

/-- C1: for every iteration count `n ≥ 0`, the plan pair active during
iteration `n` is `seq[(n / 500) % 4]`; the plan index advances by exactly
one entry (mod 4) at every step that is a positive multiple of `T = 500`;
and the active pair is always one of the 4 entries of the table, never
anything else. -/
theorem C1_plan_cycles (phys : EngineData → EngineData) (gn : Nat → String)
    (ids : Ids) (vidx : List Nat) (e : EngineData) :
    (∀ n : Nat, activePair phys gn ids vidx e n
        = seq.getD ((n / T) % seq.length) (false, false))
    ∧ (∀ m : Nat, 0 < m → m % T = 0 →
        (m / T) % seq.length = ((m - 1) / T % seq.length + 1) % seq.length)
    ∧ (∀ n : Nat, activePair phys gn ids vidx e n ∈ seq) := by
  refine ⟨activePair_eq phys gn ids vidx e, ?_, ?_⟩
  · intro m h0 h
    have hadv := div_T_advance m h0 h
    rw [seq_length_eq, hadv]
    omega
  · intro n
    rw [activePair_eq phys gn ids vidx e n]
    exact getD_mod_mem (n / T)

/-- Closed instance of `C1_plan_cycles`: at `m = 500` the hypotheses
`0 < m` and `m % T = 0` hold and the plan index advances from entry 0 to
entry 1. -/
theorem C1_plan_cycles_witness :
    0 < 500 ∧ 500 % T = 0
    ∧ (500 / T) % seq.length = ((500 - 1) / T % seq.length + 1) % seq.length :=
  ⟨by decide, by decide,
    (C1_plan_cycles id (fun _ => "") ids012 [] engZero).2.1 500 (by decide) (by decide)⟩

/-- C3: the hardcoded sequence is
`[(False, False), (True, False), (True, True), (False, True)]`, so within
every cycle the successively active pairs are high-open, low-open (lower),
low-closed (close), high-closed (lift), and the pair after high-closed is
high-open again (open). -/
theorem C3_phase_order (phys : EngineData → EngineData) (gn : Nat → String)
    (ids : Ids) (vidx : List Nat) (e : EngineData) :
    seq = [(false, false), (true, false), (true, true), (false, true)]
    ∧ ∀ k : Nat,
        activePair phys gn ids vidx e (4 * T * k) = (false, false)
        ∧ activePair phys gn ids vidx e (4 * T * k + T) = (true, false)
        ∧ activePair phys gn ids vidx e (4 * T * k + 2 * T) = (true, true)
        ∧ activePair phys gn ids vidx e (4 * T * k + 3 * T) = (false, true)
        ∧ activePair phys gn ids vidx e (4 * T * k + 4 * T) = (false, false) := by
  refine ⟨rfl, fun k => ?_⟩
  have h0 : (4 * T * k) / T % seq.length = 0 := by
    rw [seq_length_eq]; simp only [T]; omega
  have h1 : (4 * T * k + T) / T % seq.length = 1 := by
    rw [seq_length_eq]; simp only [T]; omega
  have h2 : (4 * T * k + 2 * T) / T % seq.length = 2 := by
    rw [seq_length_eq]; simp only [T]; omega
  have h3 : (4 * T * k + 3 * T) / T % seq.length = 3 := by
    rw [seq_length_eq]; simp only [T]; omega
  have h4 : (4 * T * k + 4 * T) / T % seq.length = 0 := by
    rw [seq_length_eq]; simp only [T]; omega
  refine ⟨?_, ?_, ?_, ?_, ?_⟩ <;>
    rw [activePair_eq] <;>
    first
      | (rw [h0]; rfl)
      | (rw [h1]; rfl)
      | (rw [h2]; rfl)
      | (rw [h3]; rfl)
      | (rw [h4]; rfl)

theorem filter_map_printContact (p : Event → Bool)
    (h : ∀ x, p (Event.printContact x) = false) (l : List PrintedContact) :
    (l.map Event.printContact).filter p = [] := by
  induction l with
  | nil => rfl
  | cons a l ih => simp [List.filter_cons, h, ih]

/-- C2: on every iteration, the (unconditionally executed) trace of control
writes, engine steps and render calls is exactly: the height write (`0.07`
when the active pair's first flag holds, `-0.02` otherwise), the two finger
writes (`0.020833, -0.020833` when the second flag holds,
`-0.0115, 0.0115` otherwise), then the single engine step, then the render
call — in that order. -/
theorem C2_writes_then_step_then_render (phys : EngineData → EngineData)
    (gn : Nat → String) (ids : Ids) (vidx : List Nat) (s : ScriptState) :
    (iterate phys gn ids vidx s).snd.filter isCtrlStepRender
      = [Event.writeCtrl ids.gripper_z_id
           (if (planStep s.step (s.low, s.closed)).1 then 7 / 100 else -2 / 100),
         Event.writeCtrl ids.jaw0
           (if (planStep s.step (s.low, s.closed)).2 then 20833 / 1000000 else -115 / 10000),
         Event.writeCtrl ids.jaw1
           (if (planStep s.step (s.low, s.closed)).2 then -20833 / 1000000 else 115 / 10000),
         Event.engineStep, Event.render] := by
  have hmap : ∀ l : List PrintedContact,
      (l.map Event.printContact).filter isCtrlStepRender = [] :=
    filter_map_printContact _ (fun _ => rfl)
  by_cases h100 : s.step % 100 = 0 <;> by_cases hT : s.step % T = 0 <;>
    cases hf : (planStep s.step (s.low, s.closed)).2 <;>
    simp [iterate, h100, hT, hf, List.filter_append, List.filter_cons, hmap,
      isCtrlStepRender, gripper_z_low, gripper_z_high, gripper_closed, gripper_open]

/-- C4: each tick the script overwrites exactly the height entry and the
two finger entries of the control array with the table values, and leaves
every other entry of the control array unchanged. -/
theorem C4_ctrl_frame (ids : Ids) (low closed : Bool) (c : Nat → ℚ) :
    (∀ i, i ≠ ids.gripper_z_id → i ≠ ids.jaw0 → i ≠ ids.jaw1 →
      updateCtrl ids low closed c i = c i)
    ∧ (ids.gripper_z_id ≠ ids.jaw0 → ids.gripper_z_id ≠ ids.jaw1 →
        ids.jaw0 ≠ ids.jaw1 →
        updateCtrl ids low closed c ids.gripper_z_id
          = (if low then gripper_z_low else gripper_z_high)
        ∧ updateCtrl ids low closed c ids.jaw0
          = (if closed then gripper_closed else gripper_open).getD 0 0
        ∧ updateCtrl ids low closed c ids.jaw1
          = (if closed then gripper_closed else gripper_open).getD 1 0) := by
  constructor
  · intro i h1 h2 h3
    simp [updateCtrl, write, h1, h2, h3]
  · intro hzj0 hzj1 hj01
    refine ⟨?_, ?_, ?_⟩ <;> simp [updateCtrl, write, hzj0, hzj1, hj01, Ne.symm hj01]

/-- Closed instance of `C4_ctrl_frame` at distinct ids `0, 1, 2`: entry 5
is untouched and the three owned entries receive the table values. -/
theorem C4_ctrl_frame_witness :
    ((5 : Nat) ≠ ids012.gripper_z_id ∧ (5 : Nat) ≠ ids012.jaw0 ∧ (5 : Nat) ≠ ids012.jaw1
      ∧ updateCtrl ids012 true true (fun _ => 0) 5 = 0)
    ∧ (ids012.gripper_z_id ≠ ids012.jaw0 ∧ ids012.gripper_z_id ≠ ids012.jaw1
        ∧ ids012.jaw0 ≠ ids012.jaw1
        ∧ updateCtrl ids012 true true (fun _ => 0) ids012.gripper_z_id
            = (if true then gripper_z_low else gripper_z_high)
        ∧ updateCtrl ids012 true true (fun _ => 0) ids012.jaw0
            = (if true then gripper_closed else gripper_open).getD 0 0
        ∧ updateCtrl ids012 true true (fun _ => 0) ids012.jaw1
            = (if true then gripper_closed else gripper_open).getD 1 0) :=
  ⟨⟨by decide, by decide, by decide,
    (C4_ctrl_frame ids012 true true (fun _ => 0)).1 5 (by decide) (by decide) (by decide)⟩,
   by
    have h := (C4_ctrl_frame ids012 true true (fun _ => 0)).2
      (by decide) (by decide) (by decide)
    exact ⟨by decide, by decide, by decide, h.1, h.2.1, h.2.2⟩⟩

/-- C5: the gravity-compensation copy sets the applied-force entry at each
tracked velocity address to the engine's bias-force entry at that address
and changes no other applied-force entry; in every iteration it is applied
to the engine data produced by the single engine step (which itself sees
the fresh control writes), and it happens after the engine step and before
the render call. -/
theorem C5_gravity_copy (phys : EngineData → EngineData) (gn : Nat → String)
    (ids : Ids) (vidx : List Nat) :
    (∀ e : EngineData,
      (∀ i, i ∈ vidx → (copyGravity vidx e).qfrc_applied i = e.qfrc_bias i)
      ∧ (∀ i, i ∉ vidx → (copyGravity vidx e).qfrc_applied i = e.qfrc_applied i)
      ∧ (copyGravity vidx e).qfrc_bias = e.qfrc_bias
      ∧ (copyGravity vidx e).ctrl = e.ctrl)
    ∧ (∀ s : ScriptState,
        (iterate phys gn ids vidx s).snd.filter isStepCopyRender
          = [Event.engineStep, Event.copyGrav vidx, Event.render])
    ∧ (∀ s : ScriptState,
        (iterate phys gn ids vidx s).fst.eng
          = copyGravity vidx (phys { s.eng with
              ctrl := updateCtrl ids (planStep s.step (s.low, s.closed)).1
                        (planStep s.step (s.low, s.closed)).2 s.eng.ctrl })) := by
  refine ⟨fun e => ⟨fun i hi => ?_, fun i hi => ?_, rfl, rfl⟩, fun s => ?_, fun s => rfl⟩
  · simp [copyGravity, hi]
  · simp [copyGravity, hi]
  · have hmap : ∀ l : List PrintedContact,
        (l.map Event.printContact).filter isStepCopyRender = [] :=
      filter_map_printContact _ (fun _ => rfl)
    by_cases h100 : s.step % 100 = 0 <;> by_cases hT : s.step % T = 0 <;>
      simp [iterate, h100, hT, List.filter_append, List.filter_cons, hmap,
        isStepCopyRender]

/-- Closed instance of `C5_gravity_copy` at `vidx = [3]`: the tracked entry
3 receives the bias force and the untracked entry 5 keeps its value. -/
theorem C5_gravity_copy_witness :
    ((3 : Nat) ∈ [3]
      ∧ (copyGravity [3] engZero).qfrc_applied 3 = engZero.qfrc_bias 3)
    ∧ ((5 : Nat) ∉ [3]
      ∧ (copyGravity [3] engZero).qfrc_applied 5 = engZero.qfrc_applied 5) :=
  ⟨⟨by decide,
    ((C5_gravity_copy id (fun _ => "") ids012 [3]).1 engZero).1 3 (by decide)⟩,
   ⟨by decide,
    ((C5_gravity_copy id (fun _ => "") ids012 [3]).1 engZero).2.1 5 (by decide)⟩⟩

/-- C7: for every step counter value, the plan lookup index
`int(step / T) % len(seq)` is strictly below `len(seq) = 4`, so the
indexing into the plan table is always in bounds. -/
theorem C7_index_in_bounds :
    (∀ step : Nat, planIndex step < seq.length) ∧ seq.length = 4 := by
  refine ⟨fun step => ?_, rfl⟩
  unfold planIndex
  exact Nat.mod_lt _ (by rw [seq_length_eq]; omega)

/-- C6: the step counter starts at 0, increases by exactly 1 per iteration,
the diagnostics block runs exactly when `step % 100 == 0`, the plan update
runs exactly when `step % T == 0`, and on steps that trigger neither, two
runs of the body that differ only in the counter value produce identical
traces and identical successor states apart from the counter itself. -/
theorem C6_step_counter (phys : EngineData → EngineData) (gn : Nat → String)
    (ids : Ids) (vidx : List Nat) :
    (∀ e : EngineData, (initState e).step = 0)
    ∧ (∀ s : ScriptState, (iterate phys gn ids vidx s).fst.step = s.step + 1)
    ∧ (∀ s : ScriptState,
        (Event.printStep s.step ∈ (iterate phys gn ids vidx s).snd
          ↔ s.step % 100 = 0))
    ∧ (∀ s : ScriptState,
        ((∃ l c, Event.planChange l c ∈ (iterate phys gn ids vidx s).snd)
          ↔ s.step % T = 0))
    ∧ (∀ s₁ s₂ : ScriptState, s₁.step % 100 ≠ 0 → s₂.step % 100 ≠ 0 →
        s₁.low = s₂.low → s₁.closed = s₂.closed → s₁.eng = s₂.eng →
        (iterate phys gn ids vidx s₁).snd = (iterate phys gn ids vidx s₂).snd
        ∧ (iterate phys gn ids vidx s₁).fst.low
            = (iterate phys gn ids vidx s₂).fst.low
        ∧ (iterate phys gn ids vidx s₁).fst.closed
            = (iterate phys gn ids vidx s₂).fst.closed
        ∧ (iterate phys gn ids vidx s₁).fst.eng
            = (iterate phys gn ids vidx s₂).fst.eng) := by
  refine ⟨fun e => rfl, fun s => rfl, fun s => ?_, fun s => ?_, ?_⟩
  · by_cases h100 : s.step % 100 = 0 <;> by_cases hT : s.step % T = 0 <;>
      simp [iterate, h100, hT]
  · by_cases h100 : s.step % 100 = 0 <;> by_cases hT : s.step % T = 0 <;>
      simp [iterate, h100, hT]
  · rintro ⟨l₁, c₁, st₁, e₁⟩ ⟨l₂, c₂, st₂, e₂⟩ h100a h100b hl hc he
    simp only at h100a h100b hl hc he
    subst hl; subst hc; subst he
    have hTa : st₁ % T ≠ 0 := by simp only [T] at *; omega
    have hTb : st₂ % T ≠ 0 := by simp only [T] at *; omega
    refine ⟨?_, ?_, ?_, ?_⟩ <;>
      simp [iterate, planStep, h100a, h100b, hTa, hTb]

/-- Closed instance of `C6_step_counter`: at counter values 1 and 2
(neither a multiple of 100) the two runs of the body agree on the trace. -/
theorem C6_step_counter_witness :
    (1 % 100 ≠ 0) ∧ (2 % 100 ≠ 0)
    ∧ (iterate id (fun _ => "") ids012 []
          { low := false, closed := true, step := 1, eng := engZero }).snd
        = (iterate id (fun _ => "") ids012 []
          { low := false, closed := true, step := 2, eng := engZero }).snd :=
  ⟨by decide, by decide,
    ((C6_step_counter id (fun _ => "") ids012 []).2.2.2.2
      { low := false, closed := true, step := 1, eng := engZero }
      { low := false, closed := true, step := 2, eng := engZero }
      (by decide) (by decide) rfl rfl rfl).1⟩

theorem lookupE_ok_iff {α : Type} (o : Option α) (msg : String) :
    (∃ v, lookupE o msg = Except.ok v) ↔ o.isSome := by
  cases o <;> simp [lookupE]

theorem lookupAll_ok_iff {α β : Type} (f : α → Except String β) (l : List α) :
    (∃ v, lookupAll f l = Except.ok v) ↔ ∀ x ∈ l, ∃ v, f x = Except.ok v := by
  induction l with
  | nil => simp [lookupAll]
  | cons a l ih =>
    cases hfa : f a with
    | error e => simp [lookupAll, hfa]
    | ok v =>
      cases hr : lookupAll f l with
      | error e => simp [lookupAll, hfa, hr, List.forall_mem_cons, ← ih]
      | ok vs => simp [lookupAll, hfa, hr, List.forall_mem_cons, ← ih]

theorem except_error_of_not_ok {α : Type} (r : Except String α)
    (h : ¬ ∃ v, r = Except.ok v) : ∃ e, r = Except.error e := by
  cases r with
  | error e => exact ⟨e, rfl⟩
  | ok v => exact absurd ⟨v, rfl⟩ h

theorem setupRefs_ok_iff (m : SimModel) (ns : List String) :
    (∃ v, setupRefs m ns = Except.ok v) ↔
      ((m.joint_qvel_addr ("gripper_z_joint")).isSome
       ∧ (m.actuator_id ("gripper_z")).isSome
       ∧ ∀ x ∈ ns, (m.actuator_id x).isSome) := by
  have hA := lookupAll_ok_iff (fun x => lookupE (m.joint_qvel_addr x) x)
    [("gripper_z_joint")]
  have hB := lookupE_ok_iff (m.actuator_id ("gripper_z")) ("gripper_z")
  have hC := lookupAll_ok_iff (fun x => lookupE (m.actuator_id x) x) ns
  simp only [List.forall_mem_cons, List.not_mem_nil, false_implies, implies_true,
    and_true, lookupE_ok_iff] at hA
  simp only [lookupE_ok_iff] at hC
  unfold setupRefs
  simp only [gravity_corrected]
  cases hj : lookupAll (fun x => lookupE (m.joint_qvel_addr x) x)
      [("gripper_z_joint")] with
  | error e =>
    rw [hj] at hA
    simp at hA
    simp [hA]
  | ok vidx =>
    rw [hj] at hA
    simp at hA
    cases hz : lookupE (m.actuator_id ("gripper_z")) ("gripper_z") with
    | error e =>
      rw [hz] at hB
      simp at hB
      simp [hA, hB]
    | ok zid =>
      rw [hz] at hB
      simp at hB
      cases hw : lookupAll (fun x => lookupE (m.actuator_id x) x) ns with
      | error e =>
        rw [hw] at hC
        simp at hC
        simp [hA, hB, hC]
      | ok jaws =>
        rw [hw] at hC
        simp at hC
        simpa [hA, hB] using hC

/-- C8: the script wraps no external call in a handler: the prologue's
lookups succeed as a whole exactly when every individual lookup succeeds,
a missing joint name or a missing actuator name makes the whole prologue
return the error, and a failing geom-id-to-name lookup for any reported
contact makes the whole diagnostics loop return the error. -/
theorem C8_no_error_handling :
    (∀ (m : SimModel) (ns : List String),
      (∃ v, setupRefs m ns = Except.ok v) ↔
        ((m.joint_qvel_addr ("gripper_z_joint")).isSome
         ∧ (m.actuator_id ("gripper_z")).isSome
         ∧ ∀ x ∈ ns, (m.actuator_id x).isSome))
    ∧ (∀ (m : SimModel) (ns : List String),
        m.joint_qvel_addr ("gripper_z_joint") = none →
          ∃ err, setupRefs m ns = Except.error err)
    ∧ (∀ (m : SimModel) (ns : List String) (x : String),
        x ∈ ns → m.actuator_id x = none →
          ∃ err, setupRefs m ns = Except.error err)
    ∧ (∀ (nameF : Nat → Option String) (cs : List Contact) (c : Contact),
        c ∈ cs → (nameF c.geom1 = none ∨ nameF c.geom2 = none) →
          ∃ err, contactLinesE nameF cs = Except.error err) := by
  refine ⟨setupRefs_ok_iff, ?_, ?_, ?_⟩
  · intro m ns hnone
    refine except_error_of_not_ok _ ?_
    rw [setupRefs_ok_iff]
    simp [hnone]
  · intro m ns x hx hnone
    refine except_error_of_not_ok _ ?_
    rw [setupRefs_ok_iff]
    intro h
    have := h.2.2 x hx
    rw [hnone] at this
    simp at this
  · intro nameF cs c hc hnone
    induction cs with
    | nil => simp at hc
    | cons a rest ih =>
      cases h1 : nameF a.geom1 with
      | none => exact ⟨"geom_id2name", by simp [contactLinesE, lookupE, h1]⟩
      | some g1 =>
        cases h2 : nameF a.geom2 with
        | none => exact ⟨"geom_id2name", by simp [contactLinesE, lookupE, h1, h2]⟩
        | some g2 =>
          rcases List.mem_cons.mp hc with rfl | hmem
          · rcases hnone with h | h
            · rw [h1] at h; cases h
            · rw [h2] at h; cases h
          · obtain ⟨e, he⟩ := ih hmem
            exact ⟨e, by simp [contactLinesE, lookupE, h1, h2, he]⟩

/-- Closed instance of `C8_no_error_handling`: with every lookup failing,
the prologue and the diagnostics loop both return errors. -/
theorem C8_no_error_handling_witness :
    (mNone.joint_qvel_addr ("gripper_z_joint") = none
      ∧ ∃ err, setupRefs mNone [] = Except.error err)
    ∧ (contact0 ∈ [contact0]
      ∧ (mNone.geom_name contact0.geom1 = none ∨ mNone.geom_name contact0.geom2 = none)
      ∧ ∃ err, contactLinesE mNone.geom_name [contact0] = Except.error err) :=
  ⟨⟨rfl, C8_no_error_handling.2.1 mNone [] rfl⟩,
   ⟨by simp, Or.inl rfl,
    C8_no_error_handling.2.2.2 mNone.geom_name [contact0] contact0 (by simp)
      (Or.inl rfl)⟩⟩

/-- C9: in the diagnostics block, a contact among the first `ncon` is
skipped exactly when both of its geom names are `"floor"`; every other
contact in that range is printed with its two geom names, its friction,
and the first three entries of its frame, in the reported order. -/
theorem C9_contact_diagnostics (geomName : Nat → String) (cs : List Contact)
    (ncon : Nat) :
    contactLines geomName (cs.take ncon)
      = ((cs.take ncon).filter
          (fun c => ¬(geomName c.geom1 = "floor" ∧ geomName c.geom2 = "floor"))).map
          (fun c => (geomName c.geom1, geomName c.geom2, c.friction, c.frame.take 3)) := by
  generalize cs.take ncon = l
  induction l with
  | nil => rfl
  | cons c l ih =>
    by_cases h : geomName c.geom1 = "floor" ∧ geomName c.geom2 = "floor"
    · simp [contactLines, List.filter_cons, h, ih]
    · have h' := not_and_or.mp h
      simp [contactLines, List.filter_cons, h, h', ih]

/-- C10: the pre-loop values of the two phase flags are dead: at step 0 the
plan update fires first and overwrites both flags with
`seq[0] = (False, False)`, so the first iteration's outcome is entirely
independent of the initial flag values, the first active pair is
high-and-open, and the first control writes command the high setpoint with
open fingers. -/
theorem C10_init_flags_dead (phys : EngineData → EngineData) (gn : Nat → String)
    (ids : Ids) (vidx : List Nat) (e : EngineData) :
    (∀ l₀ c₀ l₁ c₁ : Bool,
      iterate phys gn ids vidx { low := l₀, closed := c₀, step := 0, eng := e }
        = iterate phys gn ids vidx { low := l₁, closed := c₁, step := 0, eng := e })
    ∧ seq.getD (planIndex 0) (false, false) = (false, false)
    ∧ (iterate phys gn ids vidx (initState e)).fst.low = false
    ∧ (iterate phys gn ids vidx (initState e)).fst.closed = false
    ∧ (iterate phys gn ids vidx (initState e)).snd.filter isWrite
        = [Event.writeCtrl ids.gripper_z_id gripper_z_high,
           Event.writeCtrl ids.jaw0 (-115 / 10000),
           Event.writeCtrl ids.jaw1 (115 / 10000)] := by
  have hmap : ∀ l : List PrintedContact,
      (l.map Event.printContact).filter isWrite = [] :=
    filter_map_printContact _ (fun _ => rfl)
  refine ⟨fun l₀ c₀ l₁ c₁ => ?_, by decide, ?_, ?_, ?_⟩
  · simp [iterate, planStep]
  · simp [iterate, initState, planStep, seq]
  · simp [iterate, initState, planStep, seq]
  · simp [iterate, initState, planStep, List.filter_append, List.filter_cons,
      hmap, isWrite, gripper_open, seq]

end GripperDemo
